import Mathlib

/-!
Verification of the session-replay browser agent core: session/sequence
bookkeeping and the frustration-signal detectors (rage click, dead click,
scroll thrashing, form hesitation), embedded shallowly from the TypeScript
sources.  JavaScript number arithmetic on scores is modelled exactly over ℚ;
timestamps are modelled as integers (milliseconds).
-/

namespace SessionReplay

/-- JavaScript `Math.round`: floor of `x + 1/2` (half rounds up). -/
def jsRound (x : ℚ) : ℤ := ⌊x + 1/2⌋

/-- JavaScript `String.prototype.toUpperCase`, characterwise (the relevant
inputs are ASCII tag/role names). -/
def jsToUpper (s : String) : String := ⟨s.data.map Char.toUpper⟩

/-- JavaScript `String.prototype.toLowerCase`, characterwise. -/
def jsToLower (s : String) : String := ⟨s.data.map Char.toLower⟩

/-- JavaScript `Math.min` on exact rationals. -/
def jsMin (a b : ℚ) : ℚ := if a ≤ b then a else b

/-- JavaScript `Math.max` on exact rationals. -/
def jsMax (a b : ℚ) : ℚ := if b ≤ a then a else b

/-! ## Session module (packages/browser-agent/src/session.ts)

The module keeps a `currentSession` singleton plus a `sessionStorage` cell.
The storage cell holds the JSON serialization of the record; we model the
serialized form as a flat JSON object (list of key/value pairs), which is
what `JSON.stringify`/`JSON.parse` produce for this record. -/

/-- A primitive JSON value, as stored in one field of the persisted record. -/
inductive JsonValue where
  | str (s : String)
  | num (n : Int)
  | boolean (b : Bool)
  | null
deriving DecidableEq, Repr

/-- A flat JSON object: what `JSON.parse` of the stored string yields. -/
abbrev JsonObject := List (String × JsonValue)

/-- Field lookup on a parsed JSON object (`parsed.field`). -/
def jsonLookup (fields : JsonObject) (k : String) : Option JsonValue :=
  (fields.find? (fun p => p.1 == k)).map (·.2)

/-- JavaScript truthiness of a JSON value (`if (parsed.id)`). -/
def jsTruthy : JsonValue → Bool
  | .str s => !s.isEmpty
  | .num n => n != 0
  | .boolean b => b
  | .null => false

/-- JavaScript string view of a JSON value; used only when a malformed
record stores a non-string under `id` (the code returns it unchanged). -/
def JsonValue.toStringJs : JsonValue → String
  | .str s => s
  | .num n => toString n
  | .boolean b => if b then "true" else "false"
  | .null => "null"

/-- The in-memory `SessionData` record of session.ts. -/
structure SessionData where
  id : String
  sequence : Int
  startedAt : Int
  userId : Option String := none
  userEmail : Option String := none
  userName : Option String := none
deriving DecidableEq, Repr

/-- `JSON.stringify` of a session record (fields that are `undefined` are
omitted by stringify, hence the optional tail). -/
def sessionToJson (s : SessionData) : JsonObject :=
  [("id", .str s.id), ("sequence", .num s.sequence), ("startedAt", .num s.startedAt)]
    ++ (match s.userId with | some u => [("userId", JsonValue.str u)] | none => [])
    ++ (match s.userEmail with | some e => [("userEmail", JsonValue.str e)] | none => [])
    ++ (match s.userName with | some n => [("userName", JsonValue.str n)] | none => [])

/-- The validation / reconstruction step of `loadOrCreateSession`: the parsed
object is accepted when `parsed.id` is truthy and `parsed.sequence` is a
number; the code then returns `parsed` as the session.  A missing or
non-numeric `startedAt` on an otherwise valid record is modelled as 0. -/
def parseStoredSession (fields : JsonObject) : Option SessionData :=
  match jsonLookup fields "id", jsonLookup fields "sequence" with
  | some idv, some (.num seq) =>
    if jsTruthy idv then
      some { id := idv.toStringJs
             sequence := seq
             startedAt := match jsonLookup fields "startedAt" with
               | some (.num n) => n
               | _ => 0
             userId := match jsonLookup fields "userId" with
               | some (.str u) => some u
               | _ => none
             userEmail := match jsonLookup fields "userEmail" with
               | some (.str e) => some e
               | _ => none
             userName := match jsonLookup fields "userName" with
               | some (.str n) => some n
               | _ => none }
    else none
  | _, _ => none

/-- `loadOrCreateSession`: use the persisted record when it validates,
otherwise synthesize a fresh session (UUID generation and `Date.now()` are
environment inputs, passed as `freshId` and `now`). -/
def loadOrCreateSession (stored : Option JsonObject) (freshId : String) (now : Int) :
    SessionData :=
  match stored.bind parseStoredSession with
  | some s => s
  | none => { id := freshId, sequence := 0, startedAt := now }

/-- `persistSession`: the new content of the storage cell. -/
def persistSession (s : SessionData) : Option JsonObject :=
  some (sessionToJson s)

/-- Module-level state of session.ts: the `currentSession` singleton plus the
`sessionStorage` cell. -/
structure ModuleState where
  currentSession : Option SessionData
  storage : Option JsonObject
deriving DecidableEq, Repr

/-- `getSession`: lazily load-or-create and persist. -/
def getSession (st : ModuleState) (freshId : String) (now : Int) :
    SessionData × ModuleState :=
  match st.currentSession with
  | some s => (s, st)
  | none =>
    let s := loadOrCreateSession st.storage freshId now
    (s, { currentSession := some s, storage := persistSession s })

/-- `getNextSequence`: returns the current sequence value, then increments
and persists. -/
def getNextSequence (st : ModuleState) (freshId : String) (now : Int) :
    Int × ModuleState :=
  let step := getSession st freshId now
  let s := step.1
  let s' : SessionData := { s with sequence := s.sequence + 1 }
  (s.sequence, { currentSession := some s', storage := persistSession s' })

/-- The values returned by `n` successive `getNextSequence` calls
(the fresh-session inputs are irrelevant after the first call). -/
def iterNextSequence (st : ModuleState) : Nat → List Int
  | 0 => []
  | n + 1 =>
    let step := getNextSequence st "" 0
    step.1 :: iterNextSequence step.2 n

/-! ## Rage click detector (frustration/rage-click.ts)

Per-target state: a time-ordered list of click timestamps.  Config defaults
(`?? 3`, `?? 1000`) are resolved at construction, so we store the resolved
values. -/

namespace RageClick

structure Config where
  clickThreshold : Nat := 3
  timeWindowMs : Int := 1000
deriving DecidableEq, Repr

/-- A detected rage-click event (its score-relevant fields). -/
structure Event where
  clickCount : Nat
  durationMs : Int
  score : ℚ
deriving DecidableEq, Repr

/-- `calculateScore`: weighted count/velocity score, clamped and rounded to
two decimals (`Math.round(x * 100) / 100`). -/
def calculateScore (clickCount : Nat) (durationMs : Int) : ℚ :=
  let countScore : ℚ := jsMin ((clickCount : ℚ) / 10) 1
  let clicksPerSecond : ℚ :=
    if 0 < durationMs then ((clickCount : ℚ) / (durationMs : ℚ)) * 1000 else 10
  let velocityScore : ℚ := jsMin (clicksPerSecond / 10) 1
  let combinedScore : ℚ := countScore * (4/10) + velocityScore * (6/10)
  (jsRound (jsMin (jsMax combinedScore 0) 1 * 100) : ℚ) / 100

/-- `createRageClickEvent` on a nonempty in-window click list. -/
def createRageClickEvent (clicks : List Int) : Event :=
  let firstClick := clicks.head?.getD 0
  let lastClick := clicks.getLast?.getD 0
  let durationMs := lastClick - firstClick
  { clickCount := clicks.length
    durationMs := durationMs
    score := calculateScore clicks.length durationMs }

/-- `recordClick` for one target: append the click, shift out clicks older
than the window, and on reaching the threshold emit an event and reset the
target's list to empty. -/
def recordClick (cfg : Config) (clicks : List Int) (now : Int) :
    List Int × Option Event :=
  let clicks := clicks ++ [now]
  let cutoff := now - cfg.timeWindowMs
  let clicks := clicks.dropWhile (fun t => decide (t < cutoff))
  if cfg.clickThreshold ≤ clicks.length then
    ([], some (createRageClickEvent clicks))
  else (clicks, none)

/-- Feeding a sequence of click times for one target through `recordClick`,
collecting the emitted events in order. -/
def run (cfg : Config) (clicks : List Int) : List Int → List Int × List Event
  | [] => (clicks, [])
  | t :: ts =>
    ((run cfg (recordClick cfg clicks t).1 ts).1,
      (recordClick cfg clicks t).2.toList ++ (run cfg (recordClick cfg clicks t).1 ts).2)

/-- The resolved default configuration (`clickThreshold ?? 3`,
`timeWindowMs ?? 1000`). -/
def defaultConfig : Config := {}

/-- The score formula exactly as the spec words it: weighted count and
velocity scores, rounded to two decimals then clamped to `[0,1]`, the
velocity term being maximal when the window duration is zero. -/
def specScoreFormula (clickCount durationMs : Nat) : ℚ :=
  let countScore : ℚ := min ((clickCount : ℚ) / 10) 1
  let velocityScore : ℚ :=
    if durationMs = 0 then 1
    else min ((clickCount : ℚ) / (durationMs : ℚ) * 1000 / 10) 1
  min (max ((round ((4/10 * countScore + 6/10 * velocityScore) * 100) : ℚ) / 100) 0) 1

end RageClick

/-! ## DOM elements

The detectors only inspect an element's tag name and attributes; an element
is modelled as that data, and a clicked node's ancestor chain is passed
alongside where parent traversal matters. -/

/-- A DOM element as the detectors see it. `tagName` is as the DOM reports
it (uppercase for HTML elements). -/
structure DomElement where
  tagName : String
  attrs : List (String × String)
deriving DecidableEq, Repr

/-- `element.hasAttribute(name)`. -/
def DomElement.hasAttr (e : DomElement) (n : String) : Bool :=
  e.attrs.any (fun p => p.1 == n)

/-- `element.getAttribute(name)` (`none` models `null`). -/
def DomElement.getAttr (e : DomElement) (n : String) : Option String :=
  (e.attrs.find? (fun p => p.1 == n)).map (·.2)

/-! ## Dead click detector (frustration/dead-click.ts) -/

namespace DeadClick

/-- The fixed interactive tag set `INTERACTIVE_TAGS`. -/
def INTERACTIVE_TAGS : List String :=
  ["BUTTON", "INPUT", "SELECT", "TEXTAREA", "SUMMARY", "DETAILS"]

/-- The fixed interactive ARIA role set `INTERACTIVE_ROLES`. -/
def INTERACTIVE_ROLES : List String :=
  ["button", "link", "menuitem", "tab", "checkbox", "radio", "switch",
   "slider", "spinbutton", "combobox", "listbox", "option", "textbox"]

/-- `isInteractiveElement`: the priority-ordered interactivity classifier.
The role check mirrors `role && INTERACTIVE_ROLES.has(role.toLowerCase())`
(an empty role string is falsy). -/
def isInteractiveElement (e : DomElement) : Bool :=
  let tagName := jsToUpper e.tagName
  if e.hasAttr "disabled" then false
  else if INTERACTIVE_TAGS.contains tagName then true
  else if tagName == "A" then e.hasAttr "href"
  else if (match e.getAttr "role" with
           | some role => !role.isEmpty && INTERACTIVE_ROLES.contains (jsToLower role)
           | none => false) then true
  else if e.hasAttr "tabindex" then true
  else e.hasAttr "onclick" || e.hasAttr "onmousedown" || e.hasAttr "onmouseup"

/-- Reason taxonomy for a confirmed dead click. -/
inductive Reason where
  | non_interactive
  | disabled
  | no_href
deriving DecidableEq, Repr

/-- `getDeadClickReason`. -/
def getDeadClickReason (e : DomElement) : Reason :=
  if e.hasAttr "disabled" then .disabled
  else if jsToUpper e.tagName == "A" && !e.hasAttr "href" then .no_href
  else .non_interactive

/-- A detected dead-click event (score-relevant fields). -/
structure Event where
  elementTag : String
  score : ℚ
  reason : Reason
  looksClickable : Bool
deriving DecidableEq, Repr

/-- `createDeadClickEvent`: reason plus the tuned score constants. -/
def createDeadClickEvent (e : DomElement) (looksClickable : Bool) : Event :=
  let reason := getDeadClickReason e
  let score : ℚ :=
    if looksClickable then 7/10
    else if reason = .disabled then 5/10
    else if reason = .no_href then 6/10
    else 3/10
  { elementTag := jsToLower e.tagName
    score := score
    reason := reason
    looksClickable := looksClickable }

/-- `recordClick`: emit a dead-click event iff neither the element nor (when
`checkParents` is set) any ancestor is interactive.  `ancestors` is the
clicked element's parent chain, nearest first. -/
def recordClick (e : DomElement) (ancestors : List DomElement)
    (looksClickable checkParents : Bool) : Option Event :=
  let isInteractive :=
    if checkParents then (e :: ancestors).any isInteractiveElement
    else isInteractiveElement e
  if isInteractive then none
  else some (createDeadClickEvent e looksClickable)

end DeadClick

/-! ## Thrashing detector (thrashing.ts) -/

namespace Thrashing

inductive Direction where
  | up
  | down
deriving DecidableEq, Repr

structure ScrollRecord where
  position : Int
  timestamp : Int
  direction : Direction
deriving DecidableEq, Repr

/-- Raw configuration values; `0` models an absent/zero field, to which the
code applies the `|| DEFAULT` fallback at each use site. -/
structure Config where
  minDirectionChanges : Nat := 0
  timeWindowMs : Nat := 0
deriving DecidableEq, Repr

/-- `config.minDirectionChanges || DEFAULT_MIN_DIRECTION_CHANGES`. -/
def effMinChanges (cfg : Config) : Nat :=
  if cfg.minDirectionChanges = 0 then 3 else cfg.minDirectionChanges

/-- `config.timeWindowMs || DEFAULT_TIME_WINDOW_MS`. -/
def effTimeWindow (cfg : Config) : Nat :=
  if cfg.timeWindowMs = 0 then 2000 else cfg.timeWindowMs

/-- The host `window`/`document` readings a scroll observation sees. -/
structure ScrollEnv where
  scrollY : Int
  docScrollHeight : Int
  docClientHeight : Int
  pageUrl : String
deriving DecidableEq, Repr

/-- Detector instance state. -/
structure State where
  scrollRecords : List ScrollRecord
  lastPosition : Int
  lastDirection : Option Direction
  totalDistance : Int
deriving DecidableEq, Repr

/-- State right after `enable()` (which resets and samples `scrollY`). -/
def initialState (p0 : Int) : State :=
  { scrollRecords := [], lastPosition := p0, lastDirection := none,
    totalDistance := 0 }

structure Event where
  timestamp : Int
  score : ℚ
  directionChanges : Nat
  durationMs : Int
  scrollDistance : Int
  scrollDepthPercent : ℚ
  pageUrl : String
deriving DecidableEq, Repr

/-- `calculateScrollDepth`. -/
def calculateScrollDepth (env : ScrollEnv) : ℚ :=
  let scrollableHeight := env.docScrollHeight - env.docClientHeight
  if scrollableHeight ≤ 0 then 100
  else jsMin 100 (jsMax 0 ((env.scrollY : ℚ) / (scrollableHeight : ℚ) * 100))

/-- The in-window filter over direction-change records. -/
def recentFilter (timeWindow : Nat) (now : Int) (records : List ScrollRecord) :
    List ScrollRecord :=
  records.filter (fun r => decide (now - r.timestamp < (timeWindow : Int)))

/-- `checkForThrashing`: emit when the in-window direction-change count
reaches the threshold, then reset records/distance/direction. -/
def checkForThrashing (cfg : Config) (st : State) (env : ScrollEnv) (now : Int) :
    State × Option Event :=
  let minChanges := effMinChanges cfg
  let recentRecords := recentFilter (effTimeWindow cfg) now st.scrollRecords
  if minChanges ≤ recentRecords.length then
    let score : ℚ := jsMin 1 ((recentRecords.length : ℚ) / ((minChanges : ℚ) * 2))
    let duration : Int :=
      match recentRecords.head? with
      | some r => now - r.timestamp
      | none => 0
    ({ st with scrollRecords := [], totalDistance := 0, lastDirection := none },
     some { timestamp := now
            score := score
            directionChanges := recentRecords.length
            durationMs := duration
            scrollDistance := st.totalDistance
            scrollDepthPercent := calculateScrollDepth env
            pageUrl := env.pageUrl })
  else (st, none)

/-- `recordScroll` (enabled path): classify direction, accumulate distance,
prune old records, record a direction change and check for thrashing, then
update `lastPosition`/`lastDirection`. -/
def recordScroll (cfg : Config) (st : State) (env : ScrollEnv) (now : Int) :
    State × Option Event :=
  let currentPosition := env.scrollY
  let delta := currentPosition - st.lastPosition
  if delta = 0 then (st, none)
  else
    let direction : Direction := if delta < 0 then .up else .down
    let st1 : State :=
      { st with totalDistance := st.totalDistance + |delta|,
                scrollRecords := recentFilter (effTimeWindow cfg) now st.scrollRecords }
    let checked : State × Option Event :=
      match st.lastDirection with
      | some last =>
        if direction ≠ last then
          checkForThrashing cfg
            { st1 with scrollRecords :=
                st1.scrollRecords ++ [⟨currentPosition, now, direction⟩] }
            env now
        else (st1, none)
      | none => (st1, none)
    ({ checked.1 with lastPosition := currentPosition,
                      lastDirection := some direction }, checked.2)

/-- Feeding a sequence of scroll observations through `recordScroll`,
collecting the emitted events in order. -/
def run (cfg : Config) (st : State) : List (ScrollEnv × Int) → State × List Event
  | [] => (st, [])
  | (env, t) :: rest =>
    ((run cfg (recordScroll cfg st env t).1 rest).1,
      (recordScroll cfg st env t).2.toList
        ++ (run cfg (recordScroll cfg st env t).1 rest).2)

end Thrashing

/-! ## Form interaction tracker (form tracker module) -/

/-- JavaScript `a || b` on an optional string (`null`/`undefined` and the
empty string are falsy). -/
def jsOrString (a : Option String) (b : String) : String :=
  match a with
  | some s => if s.isEmpty then b else s
  | none => b

/-- JS `Map.get`. -/
def mapGet {α : Type} (l : List (String × α)) (k : String) : Option α :=
  (l.find? (fun p => p.1 == k)).map (·.2)

/-- JS `Map.set`: replace the entry in place, or append a new one. -/
def mapSet {α : Type} : List (String × α) → String → α → List (String × α)
  | [], k, v => [(k, v)]
  | p :: ps, k, v => if p.1 = k then (k, v) :: ps else p :: mapSet ps k v

namespace FormTracking

/-- Resolved configuration (`hesitationThresholdMs ?? 10000`). -/
structure Config where
  hesitationThresholdMs : Int := 10000
deriving DecidableEq, Repr

structure FieldState where
  focusTime : Option Int
  totalTime : Int
  interactionCount : Nat
deriving DecidableEq, Repr

/-- `FormTracker` instance state. -/
structure TrackerState where
  fieldStates : List (String × FieldState)
  totalFormTime : Int
deriving DecidableEq, Repr

/-- A freshly constructed tracker. -/
def initialState : TrackerState := { fieldStates := [], totalFormTime := 0 }

/-- `getFieldName`: `name || id || tagName.toLowerCase()`. -/
def getFieldName (e : DomElement) : String :=
  jsOrString (e.getAttr "name") (jsOrString (e.getAttr "id") (jsToLower e.tagName))

/-- `getFieldType`. -/
def getFieldType (e : DomElement) : String :=
  if jsToUpper e.tagName == "INPUT" then jsOrString (e.getAttr "type") "text"
  else jsToLower e.tagName

/-- `calculateFieldFrustration`. -/
def calculateFieldFrustration (timeSpentMs : Int) (interactionCount : Nat)
    (hesitation : Bool) : ℚ :=
  let score : ℚ := 0
  let score := if hesitation then score + 5/10 else score
  let score :=
    if 2 < interactionCount then
      score + jsMin (((interactionCount : ℚ) - 2) * (1/10)) (3/10)
    else score
  let score := if 30000 < timeSpentMs then score + 2/10 else score
  jsMin score 1

/-- `recordFieldFocus`. -/
def recordFieldFocus (st : TrackerState) (e : DomElement) (now : Int) :
    TrackerState :=
  let fieldName := getFieldName e
  let state := (mapGet st.fieldStates fieldName).getD
    { focusTime := none, totalTime := 0, interactionCount := 0 }
  let state := { state with focusTime := some now,
                            interactionCount := state.interactionCount + 1 }
  { st with fieldStates := mapSet st.fieldStates fieldName state }

/-- A field-level event. -/
structure FieldEvent where
  fieldName : String
  fieldType : String
  timeSpentMs : Int
  hesitation : Bool
  frustrationScore : ℚ
  interactionCount : Nat
  timestamp : Int
deriving DecidableEq, Repr

/-- `recordFieldBlur`: a blur with no open focus is a no-op; otherwise close
the focus, classify hesitation against the threshold, and emit a field
event. -/
def recordFieldBlur (cfg : Config) (st : TrackerState) (e : DomElement)
    (now : Int) : TrackerState × Option FieldEvent :=
  let fieldName := getFieldName e
  match mapGet st.fieldStates fieldName with
  | none => (st, none)
  | some fs =>
    match fs.focusTime with
    | none => (st, none)
    | some focusTime =>
      let timeSpentMs := now - focusTime
      let fs' : FieldState :=
        { fs with totalTime := fs.totalTime + timeSpentMs, focusTime := none }
      let hesitation := cfg.hesitationThresholdMs ≤ timeSpentMs
      ({ fieldStates := mapSet st.fieldStates fieldName fs',
         totalFormTime := st.totalFormTime + timeSpentMs },
       some { fieldName := fieldName
              fieldType := getFieldType e
              timeSpentMs := timeSpentMs
              hesitation := hesitation
              frustrationScore :=
                calculateFieldFrustration timeSpentMs fs.interactionCount hesitation
              interactionCount := fs.interactionCount
              timestamp := now })

end FormTracking

/-! ## Session event emitter (events.ts) -/

namespace Events

/-- A primitive attribute value (`string | number | boolean`). -/
inductive AttrValue where
  | str (s : String)
  | num (q : ℚ)
  | boolean (b : Bool)
deriving DecidableEq, Repr

/-- Lookup in a JS object built by appending bindings: a later binding for
the same key overrides an earlier one, which models both literal spread and
subsequent property assignment. -/
def objLookup : List (String × AttrValue) → String → Option AttrValue
  | [], _ => none
  | p :: ps, k =>
    match objLookup ps k with
    | some v => some v
    | none => if p.1 = k then some p.2 else none

/-- The `UserIdentity` returned by `getUser`. -/
structure UserIdentity where
  id : String
  email : Option String
  name : Option String
deriving DecidableEq, Repr

/-- `getUser` on a session record: `null` when `userId` is falsy. -/
def getUserFrom (s : SessionData) : Option UserIdentity :=
  match s.userId with
  | none => none
  | some u => if u.isEmpty then none else some ⟨u, s.userEmail, s.userName⟩

/-- `filterUndefined`: drop caller attributes whose value is
`undefined`/`null` (modelled as `none`). -/
def filterUndefined (attrs : List (String × Option AttrValue)) :
    List (String × AttrValue) :=
  attrs.filterMap (fun p => p.2.map (fun v => (p.1, v)))

/-- The user-identity attributes (`user.id`, plus `user.email`/`user.name`
when present and nonempty, matching the code's truthiness checks). -/
def userAttrs : Option UserIdentity → List (String × AttrValue)
  | some u =>
    [("user.id", AttrValue.str u.id)]
    ++ (match u.email with
        | some e => if e.isEmpty then [] else [("user.email", AttrValue.str e)]
        | none => [])
    ++ (match u.name with
        | some n => if n.isEmpty then [] else [("user.name", AttrValue.str n)]
        | none => [])
  | none => []

/-- The trace-correlation attributes from the active span and the explicit
`traceId` option. -/
def traceAttrs (activeSpan : Option (String × String)) (optTraceId : Option String) :
    List (String × AttrValue) :=
  (match activeSpan with
   | some sp =>
     (if sp.1.isEmpty then [] else [("trace.id", AttrValue.str sp.1)])
     ++ (if sp.2.isEmpty then [] else [("span.id", AttrValue.str sp.2)])
   | none => [])
  ++ (match optTraceId with
      | some tid => if tid.isEmpty then [] else [("trace.id", AttrValue.str tid)]
      | none => [])

/-- The attributes object of one emitted event: session/page context first,
then the caller's filtered attributes (a later binding overrides an earlier
one), then user identity and trace correlation. -/
def buildAttributes (sid : String) (seq dur : Int) (pageUrl pageTitle : String)
    (callerAttrs : List (String × Option AttrValue)) (user : Option UserIdentity)
    (activeSpan : Option (String × String)) (optTraceId : Option String) :
    List (String × AttrValue) :=
  [("session.id", AttrValue.str sid),
   ("session.sequence", AttrValue.num (seq : ℚ)),
   ("session.duration_ms", AttrValue.num (dur : ℚ)),
   ("page.url", AttrValue.str pageUrl),
   ("page.title", AttrValue.str pageTitle)]
  ++ filterUndefined callerAttrs
  ++ userAttrs user
  ++ traceAttrs activeSpan optTraceId

/-- The attribute construction of `emitSessionEvent`, threading the session
module state: `getSessionId()`, `getNextSequence()`, `getSessionDuration()`
and `getUser()` read the lazily created session in order. -/
def emitSessionEventAttrs (st : ModuleState) (freshId : String) (now : Int)
    (pageUrl pageTitle : String) (callerAttrs : List (String × Option AttrValue))
    (activeSpan : Option (String × String)) (optTraceId : Option String) :
    List (String × AttrValue) × ModuleState :=
  let step0 := getSession st freshId now
  let step1 := getNextSequence step0.2 freshId now
  let after := getSession step1.2 freshId now
  (buildAttributes step0.1.id step1.1 (now - after.1.startedAt) pageUrl pageTitle
     callerAttrs (getUserFrom after.1) activeSpan optTraceId,
   step1.2)

end Events

/-! ## Lemmas -/

theorem jsRound_eq_round (x : ℚ) : jsRound x = round x := by
  rw [jsRound, round_eq]

theorem jsMin_eq (a b : ℚ) : jsMin a b = min a b := by
  rw [jsMin, min_def]

theorem jsMax_eq (a b : ℚ) : jsMax a b = max a b := by
  unfold jsMax
  rcases le_total a b with h | h
  · rcases eq_or_lt_of_le h with rfl | hlt
    · simp
    · rw [if_neg (not_le.mpr hlt), max_eq_right h]
  · rw [if_pos h, max_eq_left h]

/-- Rounding to two decimals keeps a value of `[0,1]` inside `[0,1]`. -/
theorem round_div100_mem_unit {x : ℚ} (h0 : 0 ≤ x) (h1 : x ≤ 1) :
    0 ≤ (round (x * 100) : ℚ) / 100 ∧ (round (x * 100) : ℚ) / 100 ≤ 1 := by
  have hlow : (0 : ℤ) ≤ round (x * 100) := by
    rw [round_eq]
    exact Int.floor_nonneg.mpr (by linarith)
  have hhigh : round (x * 100) < 101 := by
    rw [round_eq]
    refine Int.floor_lt.mpr ?_
    push_cast
    linarith
  constructor
  · positivity
  · rw [div_le_one (by norm_num)]
    have h100 : round (x * 100) ≤ 100 := by omega
    exact_mod_cast h100

/-- Clamping is the identity on `[0,1]`. -/
theorem clamp01_of_mem {x : ℚ} (h0 : 0 ≤ x) (h1 : x ≤ 1) :
    min (max x 0) 1 = x := by
  rw [max_eq_left h0, min_eq_left h1]

namespace RageClick

/-- With the default window, a click more than 1000ms after the single
retained click shifts the old one out and retains only the new one. -/
theorem recordClick_slow {p t : Int} (hgap : p + 1000 < t) :
    recordClick defaultConfig [p] t = ([t], none) := by
  have h1 : p < t - 1000 := by omega
  have h2 : ¬t < t - 1000 := by omega
  simp [recordClick, defaultConfig, List.dropWhile, h1, h2]

/-- Clicks each spaced more than the window apart keep the per-target list
at a single entry and never emit. -/
theorem run_slow_clicks : ∀ (ts : List Int) (p : Int),
    List.Chain (fun a b => a + 1000 < b) p ts →
    (run defaultConfig [p] ts).2 = [] := by
  intro ts
  induction ts with
  | nil => intro p _; rfl
  | cons t ts ih =>
    intro p h
    cases h with
    | cons hgap hchain =>
      simp [run, recordClick_slow hgap, ih t hchain]

/-- The very first recorded click is always retained alone and never emits
(default threshold 3). -/
theorem recordClick_first (t : Int) :
    recordClick defaultConfig [] t = ([t], none) := by
  have h2 : ¬t < t - 1000 := by omega
  simp [recordClick, defaultConfig, List.dropWhile, h2]

/-- `calculateScore` always lands in `[0,1]`. -/
theorem calculateScore_mem_unit (c : Nat) (d : Int) :
    0 ≤ calculateScore c d ∧ calculateScore c d ≤ 1 := by
  simp only [calculateScore, jsMin_eq, jsMax_eq, jsRound_eq_round]
  have hcs0 : (0:ℚ) ≤ min ((c : ℚ) / 10) 1 := le_min (by positivity) zero_le_one
  have hcs1 : min ((c : ℚ) / 10) 1 ≤ 1 := min_le_right _ _
  have hcps0 : (0:ℚ) ≤ (if 0 < d then ((c : ℚ) / (d : ℚ)) * 1000 else 10) := by
    split
    · next h =>
      have hd : (0:ℚ) < (d : ℚ) := by exact_mod_cast h
      positivity
    · norm_num
  have hvs0 : (0:ℚ) ≤ min ((if 0 < d then ((c : ℚ) / (d : ℚ)) * 1000 else 10) / 10) 1 :=
    le_min (by positivity) zero_le_one
  have hvs1 : min ((if 0 < d then ((c : ℚ) / (d : ℚ)) * 1000 else 10) / 10) 1 ≤ 1 :=
    min_le_right _ _
  have hcomb0 : (0:ℚ) ≤ min ((c : ℚ) / 10) 1 * (4 / 10)
      + min ((if 0 < d then ((c : ℚ) / (d : ℚ)) * 1000 else 10) / 10) 1 * (6 / 10) := by
    nlinarith
  have hcomb1 : min ((c : ℚ) / 10) 1 * (4 / 10)
      + min ((if 0 < d then ((c : ℚ) / (d : ℚ)) * 1000 else 10) / 10) 1 * (6 / 10) ≤ 1 := by
    nlinarith
  rw [clamp01_of_mem hcomb0 hcomb1]
  exact round_div100_mem_unit hcomb0 hcomb1

end RageClick

/-! ### Session lemmas -/

/-- `getNextSequence` on an existing in-memory session: return the current
value, bump, persist. -/
theorem getNextSequence_of_current {st : ModuleState} {s : SessionData}
    (h : st.currentSession = some s) (fid : String) (now : Int) :
    getNextSequence st fid now =
      (s.sequence,
       { currentSession := some { s with sequence := s.sequence + 1 },
         storage := persistSession { s with sequence := s.sequence + 1 } }) := by
  simp [getNextSequence, getSession, h]

/-- Successive `getNextSequence` calls return the gap-free run starting at
the in-memory session's sequence value. -/
theorem iterNextSequence_of_current : ∀ (n : Nat) (st : ModuleState) (s : SessionData),
    st.currentSession = some s →
    iterNextSequence st n = (List.range n).map (fun i : Nat => s.sequence + (i : Int)) := by
  intro n
  induction n with
  | zero => intro st s h; simp [iterNextSequence]
  | succ n ih =>
    intro st s h
    rw [iterNextSequence]
    simp only [getNextSequence_of_current h]
    rw [ih _ { s with sequence := s.sequence + 1 } rfl]
    rw [List.range_succ_eq_map, List.map_cons, List.map_map]
    congr 1
    · simp
    · refine List.map_congr_left ?_
      intro i _
      simp only [Function.comp_apply, Nat.succ_eq_add_one]
      push_cast
      ring

/-- `parseStoredSession` inverts `sessionToJson` whenever the id is a
nonempty string. -/
theorem parseStoredSession_sessionToJson (s : SessionData) (h : s.id ≠ "") :
    parseStoredSession (sessionToJson s) = some s := by
  have hne : s.id.isEmpty = false := by
    rw [Bool.eq_false_iff]
    intro hc
    exact h ((String.isEmpty_iff _).mp hc)
  rcases s with ⟨id, seq, st, uid, uem, unm⟩
  rcases uid with _ | u <;> rcases uem with _ | e <;> rcases unm with _ | n <;>
    simp_all [parseStoredSession, sessionToJson, jsonLookup, jsTruthy,
      JsonValue.toStringJs]

/-! ### Thrashing lemmas -/

namespace Thrashing

theorem one_le_effMinChanges (cfg : Config) : 1 ≤ effMinChanges cfg := by
  unfold effMinChanges
  split <;> omega

theorem one_le_effTimeWindow (cfg : Config) : 1 ≤ effTimeWindow cfg := by
  unfold effTimeWindow
  split <;> omega

theorem length_recentFilter_le (W : Nat) (now : Int) (l : List ScrollRecord) :
    (recentFilter W now l).length ≤ l.length :=
  List.length_filter_le _ _

theorem recentFilter_idem (W : Nat) (now : Int) (l : List ScrollRecord) :
    recentFilter W now (recentFilter W now l) = recentFilter W now l := by
  apply List.filter_eq_self.mpr
  intro a ha
  exact (List.mem_filter.mp ha).2

/-- A record stamped `now` survives the in-window filter (the effective
window is always positive). -/
theorem recentFilter_append_now (cfg : Config) (now : Int)
    (l : List ScrollRecord) (r : ScrollRecord) (hr : r.timestamp = now) :
    recentFilter (effTimeWindow cfg) now (recentFilter (effTimeWindow cfg) now l ++ [r]) =
      recentFilter (effTimeWindow cfg) now l ++ [r] := by
  rw [recentFilter, List.filter_append, ← recentFilter, ← recentFilter, recentFilter_idem]
  have hW := one_le_effTimeWindow cfg
  have : now - r.timestamp < (effTimeWindow cfg : Int) := by
    rw [hr]
    omega
  simp [recentFilter, this]

/-- Emission resets records, distance and direction (the reset inside
`checkForThrashing`). -/
theorem checkForThrashing_reset (cfg : Config) (st : State) (env : ScrollEnv)
    (now : Int) (e : Event)
    (h : (checkForThrashing cfg st env now).2 = some e) :
    (checkForThrashing cfg st env now).1.scrollRecords = [] ∧
    (checkForThrashing cfg st env now).1.totalDistance = 0 ∧
    (checkForThrashing cfg st env now).1.lastDirection = none := by
  simp only [checkForThrashing] at h ⊢
  split at h
  · simp_all
  · simp_all

/-- Any emitted thrashing event's score is `min 1 (count / (2·minChanges))`
with the count equal to the in-window record count; the score is in `[0,1]`. -/
theorem checkForThrashing_emit (cfg : Config) (st : State) (env : ScrollEnv)
    (now : Int) (e : Event)
    (h : (checkForThrashing cfg st env now).2 = some e) :
    effMinChanges cfg ≤ (recentFilter (effTimeWindow cfg) now st.scrollRecords).length ∧
    e.directionChanges = (recentFilter (effTimeWindow cfg) now st.scrollRecords).length ∧
    e.score = jsMin 1 ((e.directionChanges : ℚ) / ((effMinChanges cfg : ℚ) * 2)) := by
  simp only [checkForThrashing] at h
  split at h
  · next hc =>
    simp only [Option.some.injEq] at h
    subst h
    exact ⟨hc, rfl, rfl⟩
  · simp at h

/-- `checkForThrashing` does not fire below the threshold. -/
theorem checkForThrashing_not_fire (cfg : Config) (st : State) (env : ScrollEnv)
    (now : Int)
    (h : (recentFilter (effTimeWindow cfg) now st.scrollRecords).length < effMinChanges cfg) :
    checkForThrashing cfg st env now = (st, none) := by
  simp only [checkForThrashing]
  rw [if_neg (Nat.not_le.mpr h)]

/-- One `recordScroll` step preserves the below-threshold invariant on the
record list, and any event it emits reports exactly `effMinChanges` direction
changes with score exactly `1/2`. -/
theorem recordScroll_step (cfg : Config) (st : State) (env : ScrollEnv) (now : Int)
    (hinv : st.scrollRecords.length < effMinChanges cfg) :
    (recordScroll cfg st env now).1.scrollRecords.length < effMinChanges cfg ∧
    ∀ e, (recordScroll cfg st env now).2 = some e →
      e.directionChanges = effMinChanges cfg ∧ e.score = 1/2 := by
  have hm := one_le_effMinChanges cfg
  simp only [recordScroll]
  by_cases hd : env.scrollY - st.lastPosition = 0
  · simp only [hd, if_pos rfl]
    exact ⟨hinv, by intro e h; simp at h⟩
  · rw [if_neg hd]
    rcases hld : st.lastDirection with _ | last
    · -- no previous direction: nothing recorded, records only pruned
      simp only [hld]
      refine ⟨?_, ?_⟩
      · exact lt_of_le_of_lt (length_recentFilter_le _ _ _) hinv
      · intro e h
        simp at h
    · simp only [hld]
      by_cases hdir :
          (if env.scrollY - st.lastPosition < 0 then Direction.up else Direction.down) ≠ last
      · rw [if_pos hdir]
        -- a direction change is recorded, then checked
        set pruned := recentFilter (effTimeWindow cfg) now st.scrollRecords with hpr
        have hplen : pruned.length ≤ st.scrollRecords.length :=
          length_recentFilter_le _ _ _
        set newRec : ScrollRecord :=
          ⟨env.scrollY, now,
            if env.scrollY - st.lastPosition < 0 then Direction.up else Direction.down⟩
          with hnew
        have hfilter :
            recentFilter (effTimeWindow cfg) now (pruned ++ [newRec]) = pruned ++ [newRec] :=
          recentFilter_append_now cfg now st.scrollRecords newRec rfl
        by_cases hfire :
            effMinChanges cfg ≤ (pruned ++ [newRec]).length
        · -- fires: the count is exactly the threshold
          have hlen : (pruned ++ [newRec]).length = effMinChanges cfg := by
            simp only [List.length_append, List.length_singleton]
            simp only [List.length_append, List.length_singleton] at hfire
            omega
          unfold checkForThrashing
          simp only [hfilter, hlen, le_refl, if_pos]
          refine ⟨?_, ?_⟩
          · simpa using hm
          · intro e h
            simp only [Option.some.injEq] at h
            subst h
            refine ⟨rfl, ?_⟩
            simp only [hlen]
            rw [jsMin_eq]
            have hmq : (0:ℚ) < (effMinChanges cfg : ℚ) := by
              exact_mod_cast hm
            have : ((effMinChanges cfg : ℚ)) / ((effMinChanges cfg : ℚ) * 2) = 1/2 := by
              field_simp
            rw [this]
            norm_num
        · -- below threshold: no event, records stay below the bound
          have hlt : (pruned ++ [newRec]).length < effMinChanges cfg := Nat.not_le.mp hfire
          have := checkForThrashing_not_fire cfg
            { scrollRecords := pruned ++ [newRec], lastPosition := st.lastPosition,
              lastDirection := some last,
              totalDistance := st.totalDistance + |env.scrollY - st.lastPosition| } env now
            (by simpa [hfilter] using hlt)
          rw [this]
          exact ⟨hlt, by intro e h; simp at h⟩
      · rw [if_neg hdir]
        refine ⟨?_, ?_⟩
        · exact lt_of_le_of_lt (length_recentFilter_le _ _ _) hinv
        · intro e h
          simp at h

/-- Every event emitted along any run from a below-threshold state reports
exactly the effective threshold and score `1/2`. -/
theorem run_events_spec (cfg : Config) :
    ∀ (inputs : List (ScrollEnv × Int)) (st : State),
      st.scrollRecords.length < effMinChanges cfg →
      ∀ e ∈ (run cfg st inputs).2,
        e.directionChanges = effMinChanges cfg ∧ e.score = 1/2 := by
  intro inputs
  induction inputs with
  | nil => intro st _ e h; simp [run] at h
  | cons p rest ih =>
    intro st hinv e he
    obtain ⟨hstep, hev⟩ := recordScroll_step cfg st p.1 p.2 hinv
    simp only [run, List.mem_append] at he
    rcases he with he | he
    · rcases hopt : (recordScroll cfg st p.1 p.2).2 with _ | ev
      · simp [hopt] at he
      · rw [hopt] at he
        simp only [Option.toList_some, List.mem_singleton] at he
        subst he
        exact hev e hopt
    · exact ih _ hstep e he

/-- A never-upward scroll sequence records no direction change and emits
nothing. -/
theorem run_monotone_down (cfg : Config) :
    ∀ (inputs : List (ScrollEnv × Int)) (st : State),
      st.scrollRecords = [] →
      (st.lastDirection = none ∨ st.lastDirection = some Direction.down) →
      List.Chain (fun a b => a ≤ b) st.lastPosition (inputs.map (fun p => p.1.scrollY)) →
      (run cfg st inputs).2 = [] := by
  intro inputs
  induction inputs with
  | nil => intro st _ _ _; rfl
  | cons p rest ih =>
    intro st hrec hdir hchain
    rw [List.map_cons] at hchain
    cases hchain with
    | cons hle hchain =>
      by_cases hd : p.1.scrollY - st.lastPosition = 0
      · have hstep : recordScroll cfg st p.1 p.2 = (st, none) := by
          simp only [recordScroll]
          rw [if_pos hd]
        simp only [run, hstep, Option.toList_none, List.nil_append]
        refine ih st hrec hdir ?_
        have : p.1.scrollY = st.lastPosition := by omega
        rwa [this] at hchain
      · have hdown : ¬p.1.scrollY - st.lastPosition < 0 := by omega
        have hstep : recordScroll cfg st p.1 p.2 =
            ({ st with
                totalDistance := st.totalDistance + |p.1.scrollY - st.lastPosition|,
                scrollRecords := recentFilter (effTimeWindow cfg) p.2 st.scrollRecords,
                lastPosition := p.1.scrollY,
                lastDirection := some Direction.down }, none) := by
          simp only [recordScroll]
          rw [if_neg hd]
          rcases hdir with h | h <;> simp [h, hdown]
        simp only [run, hstep, Option.toList_none, List.nil_append]
        refine ih _ ?_ ?_ ?_
        · simp [hrec, recentFilter]
        · right
          rfl
        · exact hchain

end Thrashing

/-! ### Form tracking lemmas -/

namespace FormTracking

/-- The field frustration score always lands in `[0,1]`. -/
theorem calculateFieldFrustration_mem_unit (t : Int) (ic : Nat) (h : Bool) :
    0 ≤ calculateFieldFrustration t ic h ∧ calculateFieldFrustration t ic h ≤ 1 := by
  simp only [calculateFieldFrustration, jsMin_eq]
  set a1 : ℚ := if h then (0:ℚ) + 5/10 else 0 with ha1
  have h1 : 0 ≤ a1 := by
    rw [ha1]
    split <;> norm_num
  set a2 : ℚ := if 2 < ic then a1 + min (((ic : ℚ) - 2) * (1/10)) (3/10) else a1 with ha2
  have h2 : 0 ≤ a2 := by
    rw [ha2]
    split
    · next hic =>
      have hmin : (0:ℚ) ≤ min (((ic : ℚ) - 2) * (1/10)) (3/10) := by
        refine le_min ?_ (by norm_num)
        have hic2 : (2:ℚ) ≤ (ic : ℚ) := by exact_mod_cast hic.le
        nlinarith
      linarith
    · exact h1
  set a3 : ℚ := if 30000 < t then a2 + 2/10 else a2 with ha3
  have h3 : 0 ≤ a3 := by
    rw [ha3]
    split <;> linarith
  exact ⟨le_min h3 zero_le_one, min_le_right _ _⟩

end FormTracking

/-! ### Event attribute lemmas -/

namespace Events

theorem objLookup_append_of_some {l2 : List (String × AttrValue)} {k : String}
    {v : AttrValue} (h : objLookup l2 k = some v) (l1 : List (String × AttrValue)) :
    objLookup (l1 ++ l2) k = some v := by
  induction l1 with
  | nil => simpa
  | cons p ps ih => simp [objLookup, ih]

theorem objLookup_append_of_none {l2 : List (String × AttrValue)} {k : String}
    (h : objLookup l2 k = none) (l1 : List (String × AttrValue)) :
    objLookup (l1 ++ l2) k = objLookup l1 k := by
  induction l1 with
  | nil => simpa
  | cons p ps ih => simp [objLookup, ih]

/-- Appending further bindings never removes a key. -/
theorem objLookup_isSome_append (l1 l2 : List (String × AttrValue)) (k : String)
    (h : (objLookup l1 k).isSome) : (objLookup (l1 ++ l2) k).isSome := by
  rcases ho : objLookup l2 k with _ | v
  · rw [objLookup_append_of_none ho]
    exact h
  · rw [objLookup_append_of_some ho]
    rfl

/-- The trace attributes never bind user or session keys. -/
theorem objLookup_traceAttrs_ne {k : String} (h1 : k ≠ "trace.id")
    (h2 : k ≠ "span.id") (sp : Option (String × String)) (tid : Option String) :
    objLookup (traceAttrs sp tid) k = none := by
  have h1' := h1.symm
  have h2' := h2.symm
  rcases sp with _ | ⟨a, b⟩ <;> rcases tid with _ | t <;>
    simp [traceAttrs, objLookup] <;> split_ifs <;> simp [objLookup, h1', h2']

theorem objLookup_userAttrs_id (u : UserIdentity) :
    objLookup (userAttrs (some u)) "user.id" = some (AttrValue.str u.id) := by
  rcases u with ⟨i, e, n⟩
  rcases e with _ | e <;> rcases n with _ | n <;>
    simp [userAttrs, objLookup] <;> split_ifs <;> simp [objLookup]

theorem objLookup_userAttrs_email (u : UserIdentity) {e : String}
    (he : u.email = some e) (hne : e.isEmpty = false) :
    objLookup (userAttrs (some u)) "user.email" = some (AttrValue.str e) := by
  rcases u with ⟨i, e', n⟩
  simp only at he
  subst he
  rcases n with _ | n <;>
    simp [userAttrs, objLookup, hne] <;> split_ifs <;> simp [objLookup]

theorem objLookup_userAttrs_name (u : UserIdentity) {n : String}
    (hn : u.name = some n) (hne : n.isEmpty = false) :
    objLookup (userAttrs (some u)) "user.name" = some (AttrValue.str n) := by
  rcases u with ⟨i, e, n'⟩
  simp only at hn
  subst hn
  rcases e with _ | e <;>
    simp [userAttrs, objLookup, hne] <;> split_ifs <;> simp [objLookup]

/-- `getSession` always leaves the returned session as the in-memory one. -/
theorem getSession_currentSession (st : ModuleState) (fid : String) (now : Int) :
    (getSession st fid now).2.currentSession = some (getSession st fid now).1 := by
  rcases h : st.currentSession with _ | s <;> simp [getSession, h]

/-- A sequence bump does not change the user identity. -/
theorem getUserFrom_bump (s : SessionData) (x : Int) :
    getUserFrom { s with sequence := x } = getUserFrom s := rfl

/-- The user identity read by the emitter (after the sequence bump) is the
identity of the session in effect when emission started. -/
theorem emit_user_eq (st : ModuleState) (fid : String) (now : Int) :
    getUserFrom (getSession (getNextSequence (getSession st fid now).2 fid now).2 fid now).1 =
      getUserFrom (getSession st fid now).1 := by
  rw [getNextSequence_of_current (getSession_currentSession st fid now)]
  rfl

end Events

/-! ## Claims -/

/-- C1: for every session, successive `getNextSequence()` calls return a
strictly increasing, gap-free integer sequence ordered by call order — each
call returns the current sequence value and then increments it by one — and
for a newly created session (no valid persisted record) the first call
returns 0. -/
theorem getNextSequence_gap_free_from_zero :
    (∀ (st : ModuleState) (s : SessionData) (fid : String) (now : Int),
      st.currentSession = some s →
      (getNextSequence st fid now).1 = s.sequence ∧
      (getNextSequence st fid now).2.currentSession =
        some { s with sequence := s.sequence + 1 }) ∧
    (∀ (n : Nat) (st : ModuleState) (s : SessionData),
      st.currentSession = some s →
      iterNextSequence st n = (List.range n).map (fun i : Nat => s.sequence + (i : Int))) ∧
    (∀ (stored : Option JsonObject) (fid : String) (now : Int),
      stored.bind parseStoredSession = none →
      (getNextSequence { currentSession := none, storage := stored } fid now).1 = 0) := by
  refine ⟨?_, ?_, ?_⟩
  · intro st s fid now h
    rw [getNextSequence_of_current h]
    exact ⟨rfl, rfl⟩
  · exact iterNextSequence_of_current
  · intro stored fid now h
    simp [getNextSequence, getSession, loadOrCreateSession, h]

/-- Witness for C1: three calls on a fresh in-memory session yield 0, 1, 2,
and the first call with empty storage yields 0. -/
theorem getNextSequence_gap_free_from_zero_witness :
    iterNextSequence
      { currentSession := some { id := "s", sequence := 0, startedAt := 0 },
        storage := none } 3 = [0, 1, 2] ∧
    (getNextSequence { currentSession := none, storage := none } "fresh" 5).1 = 0 := by
  constructor
  · rw [getNextSequence_gap_free_from_zero.2.1 3 _
      { id := "s", sequence := 0, startedAt := 0 } rfl]
    decide
  · exact getNextSequence_gap_free_from_zero.2.2 none "fresh" 5 rfl

/-- C8: persisting a structurally valid session record (nonempty id, numeric
sequence) and loading it back yields an identical `{id, sequence}` pair
(the model's `sequence` field is always numeric). -/
theorem session_persist_load_roundtrip (s : SessionData) (fid : String) (now : Int)
    (h : s.id ≠ "") :
    (loadOrCreateSession (persistSession s) fid now).id = s.id ∧
    (loadOrCreateSession (persistSession s) fid now).sequence = s.sequence := by
  simp [loadOrCreateSession, persistSession, parseStoredSession_sessionToJson s h]

/-- Witness for C8 at a concrete record. -/
theorem session_persist_load_roundtrip_witness :
    (loadOrCreateSession (persistSession { id := "abc", sequence := 7, startedAt := 3 })
        "f" 9).id = "abc" ∧
    (loadOrCreateSession (persistSession { id := "abc", sequence := 7, startedAt := 3 })
        "f" 9).sequence = 7 :=
  session_persist_load_roundtrip { id := "abc", sequence := 7, startedAt := 3 } "f" 9
    (by decide)

/-- C3: with the default configuration, 3 clicks on one target inside the
window emit exactly one rage-click signal with `clickCount = 3`; 2 clicks
emit nothing; clicks each spaced more than the window apart never emit; and
6 rapid clicks (80ms apart) emit exactly two signals, each with
`clickCount = 3`, because the target's list resets after each hit. -/
theorem rage_click_threshold_behavior :
    ((RageClick.run RageClick.defaultConfig [] [0, 100, 200]).2.map
        (fun e => e.clickCount) = [3]) ∧
    ((RageClick.run RageClick.defaultConfig [] [0, 100]).2 = []) ∧
    (∀ ts : List Int, ts.Chain' (fun a b => a + 1000 < b) →
      (RageClick.run RageClick.defaultConfig [] ts).2 = []) ∧
    ((RageClick.run RageClick.defaultConfig [] [0, 80, 160, 240, 320, 400]).2.map
        (fun e => e.clickCount) = [3, 3]) := by
  refine ⟨by decide, by decide, ?_, by decide⟩
  intro ts hc
  cases ts with
  | nil => rfl
  | cons t ts' =>
    have hchain : List.Chain (fun a b => a + 1000 < b) t ts' := hc
    simp [RageClick.run, RageClick.recordClick_first,
      RageClick.run_slow_clicks ts' t hchain]

/-- Witness for C3: three clicks 2000ms apart emit nothing. -/
theorem rage_click_threshold_behavior_witness :
    (RageClick.run RageClick.defaultConfig [] [0, 2000, 4000]).2 = [] :=
  rage_click_threshold_behavior.2.2.1 [0, 2000, 4000]
    (List.Chain.cons (by norm_num) (List.Chain.cons (by norm_num) List.Chain.nil))

/-- C6: the emitted rage-click score equals
`round(0.4·min(c/10,1) + 0.6·min((c/d·1000)/10,1), 2)` clamped to `[0,1]`,
with the velocity term maximal when `d = 0`. -/
theorem rage_click_score_matches_spec (c d : Nat) :
    RageClick.calculateScore c (d : Int) = RageClick.specScoreFormula c d := by
  have key : ∀ cs vs : ℚ, 0 ≤ cs → cs ≤ 1 → 0 ≤ vs → vs ≤ 1 →
      (round (min (max (cs * (4/10) + vs * (6/10)) 0) 1 * 100) : ℚ) / 100 =
      min (max ((round ((4/10 * cs + 6/10 * vs) * 100) : ℚ) / 100) 0) 1 := by
    intro cs vs h1 h2 h3 h4
    have hX0 : (0:ℚ) ≤ cs * (4/10) + vs * (6/10) := by nlinarith
    have hX1 : cs * (4/10) + vs * (6/10) ≤ 1 := by nlinarith
    rw [clamp01_of_mem hX0 hX1]
    obtain ⟨hr0, hr1⟩ := round_div100_mem_unit hX0 hX1
    rw [show (4:ℚ)/10 * cs + 6/10 * vs = cs * (4/10) + vs * (6/10) from by ring]
    rw [clamp01_of_mem hr0 hr1]
  simp only [RageClick.calculateScore, RageClick.specScoreFormula, jsMin_eq, jsMax_eq,
    jsRound_eq_round]
  rcases Nat.eq_zero_or_pos d with rfl | hd
  · simp only [Nat.cast_zero, lt_self_iff_false, if_false, if_pos rfl]
    rw [show min ((10:ℚ)/10) 1 = 1 from by norm_num]
    exact key (min ((c:ℚ)/10) 1) 1 (le_min (by positivity) zero_le_one)
      (min_le_right _ _) zero_le_one le_rfl
  · have hd' : (0:Int) < (d : Int) := by exact_mod_cast hd
    rw [if_pos hd', if_neg (Nat.pos_iff_ne_zero.mp hd), Int.cast_natCast]
    rw [show (c:ℚ) / (d:ℚ) * 1000 / 10 = (c:ℚ) / (d:ℚ) * 1000 / 10 from rfl]
    exact key (min ((c:ℚ)/10) 1) (min ((c:ℚ)/(d:ℚ) * 1000 / 10) 1)
      (le_min (by positivity) zero_le_one) (min_le_right _ _)
      (le_min (by positivity) zero_le_one) (min_le_right _ _)

/-- C2: every frustration signal emitted by any detector (rage click, dead
click, thrashing, form hesitation) carries a score in `[0,1]`. -/
theorem frustration_scores_in_unit_interval :
    (∀ (cfg : RageClick.Config) (clicks : List Int) (now : Int) (ev : RageClick.Event),
      (RageClick.recordClick cfg clicks now).2 = some ev →
      0 ≤ ev.score ∧ ev.score ≤ 1) ∧
    (∀ (e : DomElement) (anc : List DomElement) (lc cp : Bool) (ev : DeadClick.Event),
      DeadClick.recordClick e anc lc cp = some ev →
      0 ≤ ev.score ∧ ev.score ≤ 1) ∧
    (∀ (cfg : Thrashing.Config) (st : Thrashing.State) (env : Thrashing.ScrollEnv)
        (now : Int) (ev : Thrashing.Event),
      (Thrashing.checkForThrashing cfg st env now).2 = some ev →
      0 ≤ ev.score ∧ ev.score ≤ 1) ∧
    (∀ (cfg : FormTracking.Config) (st : FormTracking.TrackerState) (e : DomElement)
        (now : Int) (ev : FormTracking.FieldEvent),
      (FormTracking.recordFieldBlur cfg st e now).2 = some ev →
      0 ≤ ev.frustrationScore ∧ ev.frustrationScore ≤ 1) := by
  refine ⟨?_, ?_, ?_, ?_⟩
  · intro cfg clicks now ev h
    simp only [RageClick.recordClick] at h
    split at h
    · simp only [Option.some.injEq] at h
      subst h
      exact RageClick.calculateScore_mem_unit _ _
    · simp at h
  · intro e anc lc cp ev h
    simp only [DeadClick.recordClick] at h
    split at h <;> split at h <;>
      first
        | (rw [Option.some.injEq] at h
           subst h
           simp only [DeadClick.createDeadClickEvent]
           split_ifs <;> norm_num)
        | exact absurd h (by simp)
  · intro cfg st env now ev h
    obtain ⟨-, -, hscore⟩ := Thrashing.checkForThrashing_emit cfg st env now ev h
    rw [hscore, jsMin_eq]
    exact ⟨le_min zero_le_one (by positivity), min_le_left _ _⟩
  · intro cfg st e now ev h
    simp only [FormTracking.recordFieldBlur] at h
    split at h
    · simp at h
    · split at h
      · simp at h
      · simp only [Option.some.injEq] at h
        subst h
        exact FormTracking.calculateFieldFrustration_mem_unit _ _ _

/-- Witness for C2: bounds for one concretely emitted signal per detector. -/
theorem frustration_scores_in_unit_interval_witness :
    (0 ≤ ((RageClick.recordClick RageClick.defaultConfig [0, 100] 200).2.get (by rfl)).score ∧
      ((RageClick.recordClick RageClick.defaultConfig [0, 100] 200).2.get (by rfl)).score ≤ 1) ∧
    (0 ≤ ((DeadClick.recordClick ⟨"DIV", []⟩ [] true false).get (by rfl)).score ∧
      ((DeadClick.recordClick ⟨"DIV", []⟩ [] true false).get (by rfl)).score ≤ 1) ∧
    (0 ≤ ((Thrashing.checkForThrashing {}
        ⟨[⟨0, 0, .up⟩, ⟨0, 50, .down⟩, ⟨0, 100, .up⟩], 0, some .up, 0⟩
        ⟨0, 2000, 800, "u"⟩ 100).2.get (by rfl)).score ∧
      ((Thrashing.checkForThrashing {}
        ⟨[⟨0, 0, .up⟩, ⟨0, 50, .down⟩, ⟨0, 100, .up⟩], 0, some .up, 0⟩
        ⟨0, 2000, 800, "u"⟩ 100).2.get (by rfl)).score ≤ 1) ∧
    (0 ≤ ((FormTracking.recordFieldBlur {} ⟨[("email", ⟨some 0, 0, 1⟩)], 0⟩
        ⟨"INPUT", [("name", "email")]⟩ 15000).2.get (by rfl)).frustrationScore ∧
      ((FormTracking.recordFieldBlur {} ⟨[("email", ⟨some 0, 0, 1⟩)], 0⟩
        ⟨"INPUT", [("name", "email")]⟩ 15000).2.get (by rfl)).frustrationScore ≤ 1) :=
  ⟨frustration_scores_in_unit_interval.1 RageClick.defaultConfig [0, 100] 200 _
      (Option.some_get (by rfl)).symm,
   frustration_scores_in_unit_interval.2.1 ⟨"DIV", []⟩ [] true false _
      (Option.some_get (by rfl)).symm,
   frustration_scores_in_unit_interval.2.2.1 {}
      ⟨[⟨0, 0, .up⟩, ⟨0, 50, .down⟩, ⟨0, 100, .up⟩], 0, some .up, 0⟩
      ⟨0, 2000, 800, "u"⟩ 100 _ (Option.some_get (by rfl)).symm,
   frustration_scores_in_unit_interval.2.2.2 {} ⟨[("email", ⟨some 0, 0, 1⟩)], 0⟩
      ⟨"INPUT", [("name", "email")]⟩ 15000 _ (Option.some_get (by rfl)).symm⟩

/-- C4: a monotonic scroll-down sequence never triggers a thrashing signal;
a burst with 4 direction reversals inside the window triggers exactly one
signal with `directionChanges ≥ 3`; and emission resets the detector's
records, total distance and last direction. -/
theorem thrashing_detection_behavior :
    (∀ (cfg : Thrashing.Config) (inputs : List (Thrashing.ScrollEnv × Int)) (p0 : Int),
      List.Chain (fun a b => a ≤ b) p0 (inputs.map (fun p => p.1.scrollY)) →
      (Thrashing.run cfg (Thrashing.initialState p0) inputs).2 = []) ∧
    ((Thrashing.run {} (Thrashing.initialState 0)
        [(⟨100, 2000, 800, "u"⟩, 0), (⟨50, 2000, 800, "u"⟩, 100),
         (⟨100, 2000, 800, "u"⟩, 200), (⟨50, 2000, 800, "u"⟩, 300),
         (⟨100, 2000, 800, "u"⟩, 400)]).2.map (fun e => e.directionChanges) = [3]) ∧
    (∀ (cfg : Thrashing.Config) (st : Thrashing.State) (env : Thrashing.ScrollEnv)
        (now : Int) (e : Thrashing.Event),
      (Thrashing.checkForThrashing cfg st env now).2 = some e →
      (Thrashing.checkForThrashing cfg st env now).1.scrollRecords = [] ∧
      (Thrashing.checkForThrashing cfg st env now).1.totalDistance = 0 ∧
      (Thrashing.checkForThrashing cfg st env now).1.lastDirection = none) := by
  refine ⟨?_, by decide, ?_⟩
  · intro cfg inputs p0 hchain
    exact Thrashing.run_monotone_down cfg inputs (Thrashing.initialState p0) rfl
      (Or.inl rfl) hchain
  · exact Thrashing.checkForThrashing_reset

/-- Witness for C4: a concrete two-step downward scroll emits nothing, and a
concrete firing check resets the record list. -/
theorem thrashing_detection_behavior_witness :
    (Thrashing.run {} (Thrashing.initialState 0)
      [(⟨10, 2000, 800, "u"⟩, 0), (⟨20, 2000, 800, "u"⟩, 50)]).2 = [] ∧
    (Thrashing.checkForThrashing {}
      ⟨[⟨0, 0, .up⟩, ⟨0, 50, .down⟩, ⟨0, 100, .up⟩], 0, some .up, 0⟩
      ⟨0, 2000, 800, "u"⟩ 100).1.scrollRecords = [] :=
  ⟨thrashing_detection_behavior.1 {} [(⟨10, 2000, 800, "u"⟩, 0), (⟨20, 2000, 800, "u"⟩, 50)] 0
      (List.Chain.cons (by norm_num) (List.Chain.cons (by norm_num) List.Chain.nil)),
   (thrashing_detection_behavior.2.2 {}
      ⟨[⟨0, 0, .up⟩, ⟨0, 50, .down⟩, ⟨0, 100, .up⟩], 0, some .up, 0⟩
      ⟨0, 2000, 800, "u"⟩ 100 _ (Option.some_get (by rfl)).symm).1⟩

/-- C5: the dead-click classifier checks the disabled state first (a
disabled element is never interactive); a click on `<button>` yields no
signal, on `<a>` without `href` a signal with reason `no_href`, on a
disabled `<button>` a signal with reason `disabled`, and on
`<div role="button">` no signal. -/
theorem dead_click_classification :
    (∀ e : DomElement, e.hasAttr "disabled" = true →
      DeadClick.isInteractiveElement e = false) ∧
    (DeadClick.recordClick ⟨"BUTTON", []⟩ [] false false = none) ∧
    ((DeadClick.recordClick ⟨"A", []⟩ [] false false).map (fun ev => ev.reason) =
      some DeadClick.Reason.no_href) ∧
    ((DeadClick.recordClick ⟨"BUTTON", [("disabled", "")]⟩ [] false false).map
      (fun ev => ev.reason) = some DeadClick.Reason.disabled) ∧
    (DeadClick.recordClick ⟨"DIV", [("role", "button")]⟩ [] false false = none) := by
  refine ⟨?_, by decide, by decide, by decide, by decide⟩
  intro e h
  simp [DeadClick.isInteractiveElement, h]

/-- Witness for C5: a concrete disabled element classified non-interactive. -/
theorem dead_click_classification_witness :
    DeadClick.isInteractiveElement ⟨"SELECT", [("disabled", "")]⟩ = false :=
  dead_click_classification.1 ⟨"SELECT", [("disabled", "")]⟩ (by decide)

/-- C7: a blur with no open focus for the field is a no-op; a focus-then-blur
after 15000ms emits a field event with `hesitation = true` and
`frustrationScore ≥ 0.5`; after 3000ms it emits one with
`hesitation = false` (default threshold 10000ms). -/
theorem form_blur_hesitation_behavior :
    (∀ (cfg : FormTracking.Config) (st : FormTracking.TrackerState) (e : DomElement)
        (now : Int),
      (mapGet st.fieldStates (FormTracking.getFieldName e)).bind
          (fun fs => fs.focusTime) = none →
      FormTracking.recordFieldBlur cfg st e now = (st, none)) ∧
    (∃ ev, (FormTracking.recordFieldBlur {}
        (FormTracking.recordFieldFocus FormTracking.initialState
          ⟨"INPUT", [("name", "email")]⟩ 0)
        ⟨"INPUT", [("name", "email")]⟩ 15000).2 = some ev ∧
      ev.hesitation = true ∧ 1/2 ≤ ev.frustrationScore) ∧
    (∃ ev, (FormTracking.recordFieldBlur {}
        (FormTracking.recordFieldFocus FormTracking.initialState
          ⟨"INPUT", [("name", "email")]⟩ 0)
        ⟨"INPUT", [("name", "email")]⟩ 3000).2 = some ev ∧
      ev.hesitation = false) := by
  refine ⟨?_, ?_, ?_⟩
  · intro cfg st e now h
    simp only [FormTracking.recordFieldBlur]
    rcases hm : mapGet st.fieldStates (FormTracking.getFieldName e) with _ | fs
    · simp [hm]
    · rw [hm] at h
      simp at h
      simp [hm, h]
  · refine ⟨{ fieldName := "email"
              fieldType := "text"
              timeSpentMs := 15000
              hesitation := true
              frustrationScore := FormTracking.calculateFieldFrustration 15000 1 true
              interactionCount := 1
              timestamp := 15000 }, by rfl, rfl, ?_⟩
    norm_num [FormTracking.calculateFieldFrustration, jsMin]
  · exact ⟨{ fieldName := "email"
             fieldType := "text"
             timeSpentMs := 3000
             hesitation := false
             frustrationScore := FormTracking.calculateFieldFrustration 3000 1 false
             interactionCount := 1
             timestamp := 3000 }, by rfl, rfl⟩

/-- Witness for C7: a blur on an untouched tracker is a no-op. -/
theorem form_blur_hesitation_behavior_witness :
    FormTracking.recordFieldBlur {} FormTracking.initialState ⟨"INPUT", []⟩ 5 =
      (FormTracking.initialState, none) :=
  form_blur_hesitation_behavior.1 {} FormTracking.initialState ⟨"INPUT", []⟩ 5 rfl

/-- C9: every event emitted through the session event emitter carries
`session.id`, `session.sequence`, `session.duration_ms`, `page.url` and
`page.title` in its attributes mapping regardless of the caller's
attributes, and when a user identity is set it also carries `user.id` (with
`user.email`/`user.name` when present and nonempty). -/
theorem emitted_event_includes_context (st : ModuleState) (fid : String) (now : Int)
    (url title : String) (caller : List (String × Option Events.AttrValue))
    (span : Option (String × String)) (tid : Option String) :
    (((Events.objLookup (Events.emitSessionEventAttrs st fid now url title caller
          span tid).1 "session.id").isSome = true) ∧
     ((Events.objLookup (Events.emitSessionEventAttrs st fid now url title caller
          span tid).1 "session.sequence").isSome = true) ∧
     ((Events.objLookup (Events.emitSessionEventAttrs st fid now url title caller
          span tid).1 "session.duration_ms").isSome = true) ∧
     ((Events.objLookup (Events.emitSessionEventAttrs st fid now url title caller
          span tid).1 "page.url").isSome = true) ∧
     ((Events.objLookup (Events.emitSessionEventAttrs st fid now url title caller
          span tid).1 "page.title").isSome = true)) ∧
    (∀ u, Events.getUserFrom (getSession st fid now).1 = some u →
      Events.objLookup (Events.emitSessionEventAttrs st fid now url title caller
          span tid).1 "user.id" = some (Events.AttrValue.str u.id) ∧
      (∀ em, u.email = some em → em ≠ "" →
        Events.objLookup (Events.emitSessionEventAttrs st fid now url title caller
            span tid).1 "user.email" = some (Events.AttrValue.str em)) ∧
      (∀ nm, u.name = some nm → nm ≠ "" →
        Events.objLookup (Events.emitSessionEventAttrs st fid now url title caller
            span tid).1 "user.name" = some (Events.AttrValue.str nm))) := by
  have huser := Events.emit_user_eq st fid now
  simp only [Events.emitSessionEventAttrs, Events.buildAttributes]
  rw [huser]
  constructor
  · refine ⟨?_, ?_, ?_, ?_, ?_⟩ <;>
      · apply Events.objLookup_isSome_append
        apply Events.objLookup_isSome_append
        apply Events.objLookup_isSome_append
        simp [Events.objLookup]
  · intro u hu
    rw [hu]
    refine ⟨?_, ?_, ?_⟩
    · rw [Events.objLookup_append_of_none
        (Events.objLookup_traceAttrs_ne (by decide) (by decide) span tid)]
      exact Events.objLookup_append_of_some (Events.objLookup_userAttrs_id u) _
    · intro em hem hne
      have hne' : em.isEmpty = false := by
        rw [Bool.eq_false_iff]
        intro hc
        exact hne ((String.isEmpty_iff _).mp hc)
      rw [Events.objLookup_append_of_none
        (Events.objLookup_traceAttrs_ne (by decide) (by decide) span tid)]
      exact Events.objLookup_append_of_some
        (Events.objLookup_userAttrs_email u hem hne') _
    · intro nm hnm hne
      have hne' : nm.isEmpty = false := by
        rw [Bool.eq_false_iff]
        intro hc
        exact hne ((String.isEmpty_iff _).mp hc)
      rw [Events.objLookup_append_of_none
        (Events.objLookup_traceAttrs_ne (by decide) (by decide) span tid)]
      exact Events.objLookup_append_of_some
        (Events.objLookup_userAttrs_name u hnm hne') _

/-- Witness for C9 on a session with a user identity set. -/
theorem emitted_event_includes_context_witness :
    ((Events.objLookup (Events.emitSessionEventAttrs
        { currentSession := some { id := "s1", sequence := 0, startedAt := 0, userId := some "u1", userEmail := some "e1", userName := none }, storage := none } "f" 0 "u" "t" [] none none).1 "session.id").isSome = true) ∧
    (Events.objLookup (Events.emitSessionEventAttrs
        { currentSession := some { id := "s1", sequence := 0, startedAt := 0, userId := some "u1", userEmail := some "e1", userName := none }, storage := none } "f" 0 "u" "t" [] none none).1 "user.id" =
      some (Events.AttrValue.str "u1")) ∧
    (Events.objLookup (Events.emitSessionEventAttrs
        { currentSession := some { id := "s1", sequence := 0, startedAt := 0, userId := some "u1", userEmail := some "e1", userName := none }, storage := none } "f" 0 "u" "t" [] none none).1 "user.email" =
      some (Events.AttrValue.str "e1")) := by
  have h := emitted_event_includes_context
    { currentSession := some { id := "s1", sequence := 0, startedAt := 0, userId := some "u1", userEmail := some "e1", userName := none }, storage := none } "f" 0 "u" "t" [] none none
  have hu := h.2 ⟨"u1", some "e1", none⟩ (by rfl)
  exact ⟨h.1.1, hu.1, hu.2.1 "e1" rfl (by decide)⟩

/-- C10: every emitted thrashing signal reports `directionChanges` exactly
equal to the configured `minDirectionChanges` (the in-window record list
never grows past the threshold), so for every configuration with
`minDirectionChanges ≥ 1` the emitted score is always exactly
`min(1, m/(m·2)) = 0.5`. -/
theorem thrashing_signal_exact_threshold (cfg : Thrashing.Config) (p0 : Int)
    (inputs : List (Thrashing.ScrollEnv × Int))
    (hm : 1 ≤ cfg.minDirectionChanges) :
    ∀ e ∈ (Thrashing.run cfg (Thrashing.initialState p0) inputs).2,
      e.directionChanges = cfg.minDirectionChanges ∧ e.score = 1/2 := by
  have heff : Thrashing.effMinChanges cfg = cfg.minDirectionChanges := by
    unfold Thrashing.effMinChanges
    split <;> omega
  intro e he
  have h := Thrashing.run_events_spec cfg inputs (Thrashing.initialState p0)
    (by simpa [Thrashing.initialState, heff] using hm) e he
  rwa [heff] at h

/-- Witness for C10: with `minDirectionChanges = 2`, the burst's single
emitted signal reports exactly 2 direction changes and score `1/2`. -/
theorem thrashing_signal_exact_threshold_witness :
    1 ≤ (2:Nat) ∧
    ((Thrashing.run ⟨2, 0⟩ (Thrashing.initialState 0)
        [(⟨100, 2000, 800, "u"⟩, 0), (⟨50, 2000, 800, "u"⟩, 100),
         (⟨100, 2000, 800, "u"⟩, 200)]).2.head (by decide)).directionChanges = 2 ∧
    ((Thrashing.run ⟨2, 0⟩ (Thrashing.initialState 0)
        [(⟨100, 2000, 800, "u"⟩, 0), (⟨50, 2000, 800, "u"⟩, 100),
         (⟨100, 2000, 800, "u"⟩, 200)]).2.head (by decide)).score = 1/2 := by
  have h := thrashing_signal_exact_threshold ⟨2, 0⟩ 0
    [(⟨100, 2000, 800, "u"⟩, 0), (⟨50, 2000, 800, "u"⟩, 100),
     (⟨100, 2000, 800, "u"⟩, 200)] (by norm_num) _ (List.head_mem (by decide))
  exact ⟨by norm_num, h.1, h.2⟩

end SessionReplay
